import Mathlib

/-!
Verification of the vs-mlrt convenience layer (src/scripts/vsmlrt.py) against its
natural-language specification.

The Python module is shallowly embedded below:
* Python integers become `Int`; Python true division followed by `math.ceil`
  is modelled exactly over `ℚ` with `Int.ceil`.
* `vs.VideoNode` metadata (width, height, frame count, format) becomes the
  `Clip` structure; derived nodes produced by `core.resize.Bicubic`,
  `core.std.Expr` and `core.std.BlankClip` become constructors of `VNode`.
* The dynamically-typed `backend` argument becomes `BackendVal`, whose extra
  constructors stand for the dataclass *classes* themselves (the `backend is
  Backend.ORT_CPU` identity checks) and for arbitrary foreign values.
* Raised exceptions become `Except.error` carrying a `PyErr`
  (`TypeError` / `ValueError`) with the formatted message.
* The two preset entry points are embedded up to (and including) the final
  dispatch into `inference`; the value returned is the description of the
  plugin call that the code hands to `core.ort.Model` / `core.ov.Model`.
  The post-inference resampling in `Waifu2x` (lines 201-209) depends on the
  opaque plugin output and is outside the embedded fragment.
-/

/-- A Python exception as raised by the module: either `TypeError` or
`ValueError`, with its message. -/
inductive PyErr
  | typeError (msg : String)
  | valueError (msg : String)
deriving DecidableEq, Repr

/-- `vapoursynth` sample types (`vs.INTEGER`, `vs.FLOAT`). -/
inductive SampleType
  | INTEGER
  | FLOAT
deriving DecidableEq, Repr

/-- Identity of a `vapoursynth` pixel format.  The code only compares
`format.id` against `vs.GRAYS` and `vs.RGBS`; every other registered format is
represented by its integer id. -/
inductive FormatId
  | GRAYS
  | RGBS
  | otherFmt (code : Int)
deriving DecidableEq, Repr

/-- The `format` attribute of a `vs.VideoNode`: the fields the module reads. -/
structure VideoFormat where
  sample_type : SampleType
  bits_per_sample : Int
  id : FormatId
deriving DecidableEq, Repr

/-- A `vs.VideoNode` as seen by this module: its format and the metadata
surface (`width`, `height`, `num_frames`) the code reads. -/
structure Clip where
  format : VideoFormat
  width : Int
  height : Int
  num_frames : Int
deriving DecidableEq, Repr

/-- Embedding of `calcSize` (vsmlrt.py line 31-32):
`math.ceil((width + 2*overlap*(tiles-1)) / (tiles*multiple)) * multiple`.
Python's float true division followed by `math.ceil` is modelled as the exact
rational ceiling. -/
def calcSize (width tiles overlap multiple : Int) : Int :=
  ⌈(((width + 2 * overlap * (tiles - 1) : Int) : ℚ)) /
      (((tiles * multiple : Int) : ℚ))⌉ * multiple

/-- Ceiling of an integer divided by a natural number, as integer division. -/
lemma ceil_intCast_div_natCast (a : Int) (n : ℕ) :
    ⌈((a : ℚ)) / ((n : ℚ))⌉ = -((-a) / (n : Int)) := by
  have h1 : ((a : ℚ)) / ((n : ℚ)) = -((((-a : Int) : ℚ)) / ((n : ℚ))) := by
    push_cast
    ring
  rw [h1, Int.ceil_neg, Rat.floor_intCast_div_natCast]

/-- `calcSize` rewritten with kernel-computable integer division (valid when
`tiles * multiple` is nonnegative, in particular on the call sites, where both
factors are positive). -/
lemma calcSize_eval (w t o m : Int) (h : 0 ≤ t * m) :
    calcSize w t o m = -((-(w + 2 * o * (t - 1))) / (t * m)) * m := by
  obtain ⟨n, hn⟩ : ∃ n : ℕ, t * m = (n : Int) :=
    ⟨(t * m).toNat, (Int.toNat_of_nonneg h).symm⟩
  rw [calcSize, hn]
  rw [show (((n : Int)) : ℚ) = ((n : ℚ)) by push_cast; ring]
  rw [ceil_intCast_div_natCast]

/-- C1: for every width, tiles ≥ 1, overlap ≥ 0, multiple ≥ 1, the result of
`calcSize` is a multiple of `multiple` and `tiles` tiles of that size with
`overlap` pixels shared between neighbours cover the dimension; moreover
`calcSize 100 1 0 1 = 100` and `calcSize 100 2 8 4 = 60`. -/
theorem calcSize_covers_and_aligned :
    (∀ w t o m : Int, 1 ≤ t → 0 ≤ o → 1 ≤ m →
      m ∣ calcSize w t o m ∧ w ≤ t * calcSize w t o m - 2 * o * (t - 1)) ∧
    calcSize 100 1 0 1 = 100 ∧ calcSize 100 2 8 4 = 60 := by
  refine ⟨?_, ?_, ?_⟩
  · intro w t o m ht ho hm
    have htm : (0 : Int) < t * m := mul_pos (by omega) (by omega)
    have hb : (0 : ℚ) < (((t * m : Int)) : ℚ) := by exact_mod_cast htm
    refine ⟨dvd_mul_left m _, ?_⟩
    have h2 := Int.le_ceil
      ((((w + 2 * o * (t - 1) : Int)) : ℚ) / (((t * m : Int)) : ℚ))
    rw [div_le_iff₀ hb] at h2
    have h3 : (w + 2 * o * (t - 1) : Int) ≤
        ⌈(((w + 2 * o * (t - 1) : Int)) : ℚ) / (((t * m : Int)) : ℚ)⌉ *
          (t * m) := by exact_mod_cast h2
    rw [calcSize]
    nlinarith [h3]
  · rw [calcSize_eval 100 1 0 1 (by norm_num)]
    decide
  · rw [calcSize_eval 100 2 8 4 (by norm_num)]
    decide

/-- Witness for C1 at concrete inputs. -/
theorem calcSize_covers_and_aligned_witness :
    (4 : Int) ∣ calcSize 100 2 8 4 ∧
    (100 : Int) ≤ 2 * calcSize 100 2 8 4 - 2 * 8 * (2 - 1) := by
  have h := calcSize_covers_and_aligned.1 100 2 8 4
    (by norm_num) (by norm_num) (by norm_num)
  exact h

/-- C2: for width ≥ 1, tiles ≥ 1, overlap ≥ 0, multiple ≥ 1, `calcSize`
returns the smallest multiple of `multiple` whose `tiles` overlapping tiles
cover the dimension. -/
theorem calcSize_is_least (w t o m : Int)
    (_hw : 1 ≤ w) (ht : 1 ≤ t) (ho : 0 ≤ o) (hm : 1 ≤ m) :
    m ∣ calcSize w t o m ∧
    w ≤ t * calcSize w t o m - 2 * o * (t - 1) ∧
    ∀ s : Int, m ∣ s → w ≤ t * s - 2 * o * (t - 1) → calcSize w t o m ≤ s := by
  obtain ⟨hdvd, hcov⟩ :=
    calcSize_covers_and_aligned.1 w t o m ht ho hm
  refine ⟨hdvd, hcov, ?_⟩
  intro s hs hcovs
  obtain ⟨k, rfl⟩ := hs
  have htm : (0 : Int) < t * m := mul_pos (by omega) (by omega)
  have hb : (0 : ℚ) < (((t * m : Int)) : ℚ) := by exact_mod_cast htm
  have h1 : (w + 2 * o * (t - 1) : Int) ≤ k * (t * m) := by nlinarith [hcovs]
  have h2 : ((((w + 2 * o * (t - 1) : Int)) : ℚ) / (((t * m : Int)) : ℚ)) ≤
      ((k : Int) : ℚ) := by
    rw [div_le_iff₀ hb]
    exact_mod_cast h1
  have h3 := Int.ceil_le.mpr h2
  have h4 := mul_le_mul_of_nonneg_right h3 (by omega : (0 : Int) ≤ m)
  rw [calcSize]
  nlinarith [h4]

/-- Witness for C2 at concrete inputs: `calcSize 100 2 8 4` is an aligned
covering size and no larger than the aligned covering size 60. -/
theorem calcSize_is_least_witness :
    (4 : Int) ∣ calcSize 100 2 8 4 ∧
    (100 : Int) ≤ 2 * calcSize 100 2 8 4 - 2 * 8 * (2 - 1) ∧
    calcSize 100 2 8 4 ≤ 60 := by
  obtain ⟨h1, h2, h3⟩ := calcSize_is_least 100 2 8 4
    (by norm_num) (by norm_num) (by norm_num) (by norm_num)
  exact ⟨h1, h2, h3 60 (by norm_num) (by norm_num)⟩

/-- The dynamically-typed `backend` argument. The first three constructors are
instances of the frozen dataclasses `Backend.ORT_CPU`, `Backend.ORT_CUDA`,
`Backend.OV_CPU` with their fields; the `class*` constructors are the class
objects themselves (accepted by the `backend is Backend.ORT_CPU` identity
checks in the presets, but not instances); `foreign` is any other Python
value, carrying its textual representation. -/
inductive BackendVal
  | ORT_CPU (num_streams verbosity : Int)
  | ORT_CUDA (device_id : Int) (cudnn_benchmark : Bool) (num_streams verbosity : Int)
  | OV_CPU
  | classORT_CPU
  | classORT_CUDA
  | classOV_CPU
  | foreign (txt : String)
deriving DecidableEq, Repr

/-- Textual representation used when a backend value is interpolated into the
`unknown backend` message. -/
def BackendVal.pyStr : BackendVal → String
  | .ORT_CPU ns v =>
      ("ORT_CPU(num_streams=") ++ toString ns ++ (", verbosity=") ++ toString v ++ (")")
  | .ORT_CUDA d cb ns v =>
      ("ORT_CUDA(device_id=") ++ toString d ++ (", cudnn_benchmark=") ++ toString cb ++
        (", num_streams=") ++ toString ns ++ (", verbosity=") ++ toString v ++ (")")
  | .OV_CPU => ("OV_CPU()")
  | .classORT_CPU => ("<class vsmlrt.Backend.ORT_CPU>")
  | .classORT_CUDA => ("<class vsmlrt.Backend.ORT_CUDA>")
  | .classOV_CPU => ("<class vsmlrt.Backend.OV_CPU>")
  | .foreign txt => txt

/-- A video node in the graph this module builds: either an input clip or one
of the derived nodes the module constructs (`core.resize.Bicubic`,
`core.std.Expr`, `core.std.BlankClip`), recorded with the arguments the code
passes. -/
inductive VNode
  | src (c : Clip)
  | resizeBicubic (c : Clip) (w h : Int) (filter_param_a filter_param_b : ℚ)
  | exprNode (c : Clip) (e : String)
  | blankNode (base : Clip) (fmt : FormatId) (color : ℚ)
deriving DecidableEq, Repr

/-- Modelled from the spec: frame width of a derived node, per the external
host's frame-metadata surface (an expression node keeps its source's
dimensions; a blank clip derived from `clip` keeps `clip`'s dimensions;
`resize.Bicubic` has the requested dimensions). -/
def VNode.width : VNode → Int
  | .src c => c.width
  | .resizeBicubic _ w _ _ _ => w
  | .exprNode c _ => c.width
  | .blankNode base _ _ => base.width

/-- Modelled from the spec: frame height of a derived node (see `VNode.width`). -/
def VNode.height : VNode → Int
  | .src c => c.height
  | .resizeBicubic _ _ h _ _ => h
  | .exprNode c _ => c.height
  | .blankNode base _ _ => base.height

/-- Modelled from the spec: frame count of a derived node; all four node kinds
keep the frame count of the clip they are derived from. -/
def VNode.num_frames : VNode → Int
  | .src c => c.num_frames
  | .resizeBicubic c _ _ _ _ => c.num_frames
  | .exprNode c _ => c.num_frames
  | .blankNode base _ _ => base.num_frames

/-- Modelled from the spec: format identity of a derived node; a blank clip
carries the explicitly requested format, the other nodes keep their source's. -/
def VNode.format_id : VNode → FormatId
  | .src c => c.format.id
  | .resizeBicubic c _ _ _ _ => c.format.id
  | .exprNode c _ => c.format.id
  | .blankNode _ fmt _ => fmt

/-- The call this module hands to the external inference plugin: one
constructor per call shape in `inference` (vsmlrt.py lines 43-66), recording
every keyword argument that call passes. -/
inductive PluginCall
  | ortModelCPU (clips : List VNode) (network_path : String)
      (overlap tilesize : Int × Int) (provider : String) (builtin : Int)
      (num_streams verbosity : Int)
  | ortModelCUDA (clips : List VNode) (network_path : String)
      (overlap tilesize : Int × Int) (provider : String) (builtin : Int)
      (device_id num_streams verbosity : Int) (cudnn_benchmark : Bool)
  | ovModel (clips : List VNode) (network_path : String)
      (overlap tilesize : Int × Int) (device : String) (builtin : Int)
deriving DecidableEq, Repr

/-- The network path argument of a plugin call. -/
def PluginCall.network_path : PluginCall → String
  | .ortModelCPU _ p _ _ _ _ _ _ => p
  | .ortModelCUDA _ p _ _ _ _ _ _ _ _ => p
  | .ovModel _ p _ _ _ _ => p

/-- The overlap geometry argument of a plugin call. -/
def PluginCall.overlapGeom : PluginCall → Int × Int
  | .ortModelCPU _ _ ov _ _ _ _ _ => ov
  | .ortModelCUDA _ _ ov _ _ _ _ _ _ _ => ov
  | .ovModel _ _ ov _ _ _ => ov

/-- The tile-size geometry argument of a plugin call. -/
def PluginCall.tileGeom : PluginCall → Int × Int
  | .ortModelCPU _ _ _ ts _ _ _ _ => ts
  | .ortModelCUDA _ _ _ ts _ _ _ _ _ _ => ts
  | .ovModel _ _ _ ts _ _ => ts

/-- The clip list argument of a plugin call. -/
def PluginCall.clipList : PluginCall → List VNode
  | .ortModelCPU cs _ _ _ _ _ _ _ => cs
  | .ortModelCUDA cs _ _ _ _ _ _ _ _ _ => cs
  | .ovModel cs _ _ _ _ _ => cs

/-- Embedding of `inference` (vsmlrt.py lines 35-68): `isinstance` dispatch on
the backend value.  Class objects and foreign values are not instances of any
of the three dataclasses, so they fall through to the
`raise ValueError(f'unknown backend ...')` branch. -/
def inference (clips : List VNode) (network_path : String)
    (overlap : Int × Int) (tilesize : Int × Int) (backend : BackendVal) :
    Except PyErr PluginCall :=
  match backend with
  | .ORT_CPU ns v =>
      .ok (.ortModelCPU clips network_path overlap tilesize ("CPU") 1 ns v)
  | .ORT_CUDA d cb ns v =>
      .ok (.ortModelCUDA clips network_path overlap tilesize ("CUDA") 1 d ns v cb)
  | .OV_CPU =>
      .ok (.ovModel clips network_path overlap tilesize ("CPU") 1)
  | b => .error (.valueError (("unknown backend ") ++ b.pyStr))

/-- A user-supplied `tiles` / `tilesize` / `overlap` argument: a single int or
a pair. -/
inductive TileArg
  | intArg (n : Int)
  | pairArg (a b : Int)
deriving DecidableEq, Repr

/-- Resolution of the `overlap` argument into `(overlap_w, overlap_h)`
(vsmlrt.py lines 122-127 and 267-272), with the per-preset default `dfl`. -/
def resolveOverlap (overlap : Option TileArg) (dfl : Int) : Int × Int :=
  match overlap with
  | none => (dfl, dfl)
  | some (.intArg n) => (n, n)
  | some (.pairArg a b) => (a, b)

/-- Resolution of the `tiles` / `tilesize` arguments into `(tile_w, tile_h)`
(vsmlrt.py lines 134-149 and 276-291).  When both are `None` the tile is the
full frame; the `overlap = 0` rebinding in that branch rebinds only the local
parameter name and has no effect on the already-computed
`(overlap_w, overlap_h)`. -/
def resolveTile (w h : Int) (tiles tilesize : Option TileArg)
    (overlap_w overlap_h multiple : Int) : Int × Int :=
  match tilesize with
  | none =>
    match tiles with
    | none => (w, h)
    | some (.intArg n) =>
        (calcSize w n overlap_w multiple, calcSize h n overlap_h multiple)
    | some (.pairArg a b) =>
        (calcSize w a overlap_w multiple, calcSize h b overlap_h multiple)
  | some (.intArg n) => (n, n)
  | some (.pairArg a b) => (a, b)

/-- The `backend is Backend.XXX` normalisation shared by both presets
(vsmlrt.py lines 154-159 and 296-301): a class object passed instead of an
instance is replaced by a default-constructed instance (dataclass defaults:
`num_streams=1`, `verbosity=2`, `device_id=0`, `cudnn_benchmark=True`). -/
def normBackend : BackendVal → BackendVal
  | .classORT_CPU => .ORT_CPU 1 2
  | .classORT_CUDA => .ORT_CUDA 0 true 1 2
  | .classOV_CPU => .OV_CPU
  | b => b

/-- Member names of `Waifu2xModel`, in declaration order (vsmlrt.py 71-79). -/
def Waifu2xModelMembers : List String :=
  [("anime_style_art"), ("anime_style_art_rgb"), ("photo"),
   ("upconv_7_anime_style_art_rgb"), ("upconv_7_photo"),
   ("upresnet10"), ("cunet")]

/-- The model file name resolved by `Waifu2x` (vsmlrt.py lines 163-182). -/
def waifu2xModelName (model noise scale : Int) : String :=
  if model = 0 ∨ model = 1 ∨ model = 2 then
    if noise = -1 then ("scale2.0x_model.onnx")
    else ("noise" ++ toString noise ++ "_model.onnx")
  else if model = 3 ∨ model = 4 ∨ model = 5 then
    if noise = -1 then ("scale2.0x_model.onnx")
    else ("noise" ++ toString noise ++ "_scale2.0x_model.onnx")
  else
    if noise = -1 then ("scale2.0x_model.onnx")
    else ("noise" ++ toString noise ++ "_" ++
      (if scale = 1 then ("") else ("scale2.0x_")) ++ ("model.onnx"))

/-- The full network path resolved by `Waifu2x`:
`os.path.join("waifu2x", member_name, model_name)` on a POSIX host
(vsmlrt.py lines 161 and 184). -/
def waifu2xNetworkPath (model noise scale : Int) : String :=
  ("waifu2x/") ++ Waifu2xModelMembers.getD model.toNat ("") ++ ("/") ++
    waifu2xModelName model noise scale

/-- Whether a backend value is an instance of one of the three dataclasses
(a value the `isinstance` dispatch in `inference` accepts). -/
def isKnownBackend : BackendVal → Bool
  | .ORT_CPU _ _ => true
  | .ORT_CUDA _ _ _ _ => true
  | .OV_CPU => true
  | _ => false

/-- The overlap and tile geometry computed by `Waifu2x` (vsmlrt.py lines
122-149): `(overlap_w, overlap_h)` with the per-model default
`[8, 8, 8, 8, 8, 4, 4][model]`, and `(tile_w, tile_h)` with
`multiple = 4` for the cunet model and `1` otherwise. -/
def waifu2xGeometry (clip : Clip) (tiles tilesize overlap : Option TileArg)
    (model : Int) : (Int × Int) × (Int × Int) :=
  let dfl := ([8, 8, 8, 8, 8, 4, 4] : List Int).getD model.toNat 0
  let ow_oh := resolveOverlap overlap dfl
  (ow_oh, resolveTile clip.width clip.height tiles tilesize ow_oh.1 ow_oh.2
    (if model = 6 then 4 else 1))

/-- Embedding of `Waifu2x` (vsmlrt.py lines 82-199) up to the dispatch into
`inference`.  The validation chain, geometry resolution, path resolution and
the pre-inference bicubic doubling for models 0-2 follow the source line by
line; the `if/elif` chains become nested `ite`. -/
def Waifu2x (clip : Clip) (noise scale : Int)
    (tiles tilesize overlap : Option TileArg) (model : Int)
    (backend : BackendVal) : Except PyErr PluginCall :=
  if clip.format.sample_type ≠ SampleType.FLOAT ∨ clip.format.bits_per_sample ≠ 32 then
    .error (.valueError ("vsmlrt.Waifu2x: only constant format 32 bit float input supported"))
  else if ¬(-1 ≤ noise ∧ noise < 4) then
    .error (.valueError ("vsmlrt.Waifu2x: \"noise\" must be -1, 0, 1, 2, or 3"))
  else if ¬(scale = 1 ∨ scale = 2) then
    .error (.valueError ("vsmlrt.Waifu2x: \"scale\" must be 1 or 2"))
  else if ¬(0 ≤ model ∧ model ≤ 6) then
    .error (.valueError ("vsmlrt.Waifu2x: \"model\" must be 0, 1, 2, 3, 4, 5, or 6"))
  else if model = 0 ∧ noise = 0 then
    .error (.valueError ("vsmlrt.Waifu2x: \"anime_style_art\" model does not support noise reduction level 0"))
  else if model = 0 ∧ clip.format.id ≠ FormatId.GRAYS then
    .error (.valueError ("vsmlrt.Waifu2x: \"clip\" must be of GRAYS format"))
  else if model ≠ 0 ∧ clip.format.id ≠ FormatId.RGBS then
    .error (.valueError ("vsmlrt.Waifu2x: \"clip\" must be of RGBS format"))
  else
    if model = 6 ∧ ((waifu2xGeometry clip tiles tilesize overlap model).2.1 % 4 ≠ 0 ∨
        (waifu2xGeometry clip tiles tilesize overlap model).2.2 % 4 ≠ 0) then
      .error (.valueError ("vsmlrt.Waifu2x: tile size of cunet model must be divisible by 4 (" ++
        toString (waifu2xGeometry clip tiles tilesize overlap model).2.1 ++ ", " ++
        toString (waifu2xGeometry clip tiles tilesize overlap model).2.2 ++ ")"))
    else
      inference
        [if model = 0 ∨ model = 1 ∨ model = 2 then
          VNode.resizeBicubic clip (clip.width * 2) (clip.height * 2) 0 (3 / 4)
        else VNode.src clip]
        (waifu2xNetworkPath model noise scale)
        (waifu2xGeometry clip tiles tilesize overlap model).1
        (waifu2xGeometry clip tiles tilesize overlap model).2
        (normBackend backend)

/-- Member names of `DPIRModel`, in declaration order (vsmlrt.py 213-218). -/
def DPIRModelMembers : List String :=
  [("drunet_gray"), ("drunet_color"),
   ("drunet_deblocking_grayscale"), ("drunet_deblocking_color")]

/-- The network path resolved by `DPIR`:
`os.path.join("dpir", member_name + ".onnx")` on a POSIX host (line 303). -/
def dpirNetworkPath (model : Int) : String :=
  ("dpir/") ++ DPIRModelMembers.getD model.toNat ("") ++ (".onnx")

/-- The dynamically-typed `strength` argument of `DPIR`, split by how
`float(strength)` behaves on it:
* `scalar x` — a float or any `SupportsFloat` value; `float` returns `x`;
* `vclip c`  — a `vs.VideoNode`;
* `badStr s` — a `str` that does not parse as a float; `float` raises
  `ValueError` (which the `except TypeError` handler does *not* catch);
* `nonFloat` — any other object; `float` raises `TypeError`. -/
inductive StrengthArg
  | scalar (x : ℚ)
  | vclip (c : Clip)
  | badStr (s : String)
  | nonFloat (txt : String)
deriving DecidableEq, Repr

/-- The overlap and tile geometry computed by `DPIR` (vsmlrt.py lines
267-291): overlap defaults to `0` and `multiple = 8`. -/
def dpirGeometry (clip : Clip) (tiles tilesize overlap : Option TileArg) :
    (Int × Int) × (Int × Int) :=
  let ow_oh := resolveOverlap overlap 0
  (ow_oh, resolveTile clip.width clip.height tiles tilesize ow_oh.1 ow_oh.2 8)

/-- The tail of `DPIR` after the strength argument has been processed into the
auxiliary node `aux` (vsmlrt.py lines 267-309): overlap/tile resolution with
`multiple = 8`, the divisible-by-8 check, backend normalisation and the
dispatch into `inference` with `clips = [clip, strength]`. -/
def DPIRtail (clip : Clip) (aux : VNode)
    (tiles tilesize overlap : Option TileArg) (model : Int)
    (backend : BackendVal) : Except PyErr PluginCall :=
  if (dpirGeometry clip tiles tilesize overlap).2.1 % 8 ≠ 0 ∨
      (dpirGeometry clip tiles tilesize overlap).2.2 % 8 ≠ 0 then
    .error (.valueError ("vsmlrt.DPIR: tile size must be divisible by 8 (" ++
      toString (dpirGeometry clip tiles tilesize overlap).2.1 ++ ", " ++
      toString (dpirGeometry clip tiles tilesize overlap).2.2 ++ ")"))
  else
    inference [VNode.src clip, aux] (dpirNetworkPath model)
      (dpirGeometry clip tiles tilesize overlap).1
      (dpirGeometry clip tiles tilesize overlap).2
      (normBackend backend)

/-- The strength-processing stage of `DPIR` (vsmlrt.py lines 250-265), after
`strength = None` has already been replaced by the scalar `5.0`: a clip-valued
strength must be GRAYS and match the primary clip's size and length and is
wrapped in `core.std.Expr(strength, "x 255 /")`; a scalar strength `x` becomes
`core.std.BlankClip(clip, format=GRAYS, color=x/255)`; a non-convertible value
raises the re-raised `TypeError`; an unparsable string propagates the
`ValueError` from `float()` (which the `except TypeError` handler does not
catch). -/
def DPIRstrength (clip : Clip) (strengthVal : StrengthArg)
    (tiles tilesize overlap : Option TileArg) (model : Int)
    (backend : BackendVal) : Except PyErr PluginCall :=
  match strengthVal with
  | .vclip s =>
    if s.format.id ≠ FormatId.GRAYS then
      .error (.valueError ("vsmlrt.DPIR: \"strength\" must be of GRAYS format"))
    else if s.width ≠ clip.width ∨ s.height ≠ clip.height then
      .error (.valueError ("vsmlrt.DPIR: \"strength\" must be of the same size as \"clip\""))
    else if s.num_frames ≠ clip.num_frames then
      .error (.valueError ("vsmlrt.DPIR: \"strength\" must be of the same length as \"clip\""))
    else
      DPIRtail clip (VNode.exprNode s ("x 255 /")) tiles tilesize overlap model backend
  | .scalar x =>
      DPIRtail clip (VNode.blankNode clip FormatId.GRAYS (x / 255))
        tiles tilesize overlap model backend
  | .badStr s =>
      .error (.valueError ("could not convert string to float: " ++ s))
  | .nonFloat _ =>
      .error (.typeError ("vsmlrt.DPIR: \"strength\" must be a float or a clip"))

def DPIR (clip : Clip) (strength : Option StrengthArg)
    (tiles tilesize overlap : Option TileArg) (model : Int)
    (backend : BackendVal) : Except PyErr PluginCall :=
  if clip.format.sample_type ≠ SampleType.FLOAT ∨ clip.format.bits_per_sample ≠ 32 then
    .error (.valueError ("vsmlrt.DPIR: only constant format 32 bit float input supported"))
  else if ¬(0 ≤ model ∧ model ≤ 3) then
    .error (.valueError ("vsmlrt.DPIR: \"model\" must be 0, 1, 2 or 3"))
  else if (model = 0 ∨ model = 2) ∧ clip.format.id ≠ FormatId.GRAYS then
    .error (.valueError ("vsmlrt.DPIR: \"clip\" must be of GRAYS format"))
  else if (model = 1 ∨ model = 3) ∧ clip.format.id ≠ FormatId.RGBS then
    .error (.valueError ("vsmlrt.DPIR: \"clip\" must be of RGBS format"))
  else
    DPIRstrength clip (strength.getD (StrengthArg.scalar 5))
      tiles tilesize overlap model backend

/-- C5: `inference` maps each of the three backend dataclass instances to
exactly the corresponding provider call, forwarding the configuration fields,
model path, tile and overlap geometry unchanged, with the builtin-catalog flag
set and the fixed provider string; every value that is not an instance of one
of the three variants is rejected with a `ValueError`. -/
theorem inference_dispatch (clips : List VNode) (network_path : String)
    (ov ts : Int × Int) (ns v d : Int) (cb : Bool) :
    inference clips network_path ov ts (BackendVal.ORT_CPU ns v) =
      Except.ok (PluginCall.ortModelCPU clips network_path ov ts ("CPU") 1 ns v) ∧
    inference clips network_path ov ts (BackendVal.ORT_CUDA d cb ns v) =
      Except.ok (PluginCall.ortModelCUDA clips network_path ov ts ("CUDA") 1 d ns v cb) ∧
    inference clips network_path ov ts BackendVal.OV_CPU =
      Except.ok (PluginCall.ovModel clips network_path ov ts ("CPU") 1) ∧
    (∀ b : BackendVal, isKnownBackend b = false →
      inference clips network_path ov ts b =
        Except.error (PyErr.valueError (("unknown backend ") ++ b.pyStr))) := by
  refine ⟨rfl, rfl, rfl, ?_⟩
  intro b hb
  cases b <;> simp_all [inference, isKnownBackend]

/-- Witness for C5 at concrete inputs. -/
theorem inference_dispatch_witness :
    inference [] ("m.onnx") (8, 8) (64, 64) (BackendVal.ORT_CPU 1 2) =
      Except.ok (PluginCall.ortModelCPU [] ("m.onnx") (8, 8) (64, 64) ("CPU") 1 1 2) ∧
    inference [] ("m.onnx") (8, 8) (64, 64) (BackendVal.foreign ("3")) =
      Except.error (PyErr.valueError ("unknown backend 3")) := by
  obtain ⟨h1, _, _, h4⟩ := inference_dispatch [] ("m.onnx") (8, 8) (64, 64) 1 2 0 true
  exact ⟨h1, h4 (BackendVal.foreign ("3")) rfl⟩

/-- Characterisation of every `Waifu2x` run that reaches the backend
dispatch: under the validation preconditions the result is the plugin call
with the resolved network path, the computed geometry, and the (possibly
bicubic-doubled) input clip. -/
lemma waifu2x_ok (clip : Clip) (noise scale : Int)
    (tiles tilesize overlap : Option TileArg) (model : Int)
    (backend : BackendVal)
    (h1 : clip.format.sample_type = SampleType.FLOAT)
    (h2 : clip.format.bits_per_sample = 32)
    (hn : -1 ≤ noise ∧ noise < 4)
    (hs : scale = 1 ∨ scale = 2)
    (hm : 0 ≤ model ∧ model ≤ 6)
    (hnot : ¬(model = 0 ∧ noise = 0))
    (hfmt0 : model = 0 → clip.format.id = FormatId.GRAYS)
    (hfmt1 : model ≠ 0 → clip.format.id = FormatId.RGBS)
    (htile : model = 6 →
      (waifu2xGeometry clip tiles tilesize overlap model).2.1 % 4 = 0 ∧
      (waifu2xGeometry clip tiles tilesize overlap model).2.2 % 4 = 0)
    (hb : isKnownBackend (normBackend backend) = true) :
    ∃ call, Waifu2x clip noise scale tiles tilesize overlap model backend =
        Except.ok call ∧
      call.network_path = waifu2xNetworkPath model noise scale ∧
      call.overlapGeom = (waifu2xGeometry clip tiles tilesize overlap model).1 ∧
      call.tileGeom = (waifu2xGeometry clip tiles tilesize overlap model).2 ∧
      call.clipList = [if model = 0 ∨ model = 1 ∨ model = 2 then
          VNode.resizeBicubic clip (clip.width * 2) (clip.height * 2) 0 (3 / 4)
        else VNode.src clip] := by
  have hc1 : ¬(clip.format.sample_type ≠ SampleType.FLOAT ∨
      clip.format.bits_per_sample ≠ 32) := by simp [h1, h2]
  have hc2 : ¬¬(-1 ≤ noise ∧ noise < 4) := by omega
  have hc3 : ¬¬(scale = 1 ∨ scale = 2) := by tauto
  have hc4 : ¬¬(0 ≤ model ∧ model ≤ 6) := by omega
  have hc6 : ¬(model = 0 ∧ clip.format.id ≠ FormatId.GRAYS) := by
    rintro ⟨a, b⟩
    exact b (hfmt0 a)
  have hc7 : ¬(model ≠ 0 ∧ clip.format.id ≠ FormatId.RGBS) := by
    rintro ⟨a, b⟩
    exact b (hfmt1 a)
  have hc8 : ¬(model = 6 ∧
      ((waifu2xGeometry clip tiles tilesize overlap model).2.1 % 4 ≠ 0 ∨
       (waifu2xGeometry clip tiles tilesize overlap model).2.2 % 4 ≠ 0)) := by
    rintro ⟨a, b⟩
    obtain ⟨x, y⟩ := htile a
    rcases b with b | b
    · exact b x
    · exact b y
  rw [Waifu2x, if_neg hc1, if_neg hc2, if_neg hc3, if_neg hc4, if_neg hnot,
    if_neg hc6, if_neg hc7, if_neg hc8]
  cases hnb : normBackend backend <;> rw [hnb] at hb <;>
    simp only [isKnownBackend, Bool.false_eq_true] at hb
  · exact ⟨_, rfl, rfl, rfl, rfl, rfl⟩
  · exact ⟨_, rfl, rfl, rfl, rfl, rfl⟩
  · exact ⟨_, rfl, rfl, rfl, rfl, rfl⟩

/-- C4: an otherwise-valid `Waifu2x` call with `model = 0` and `noise = 0`
raises the descriptive `ValueError` about the `anime_style_art` model, and
every in-range `(model, noise, scale)` combination other than that one
resolves (deterministically) to exactly one model file path, namely
`waifu2xNetworkPath model noise scale`. -/
theorem waifu2x_invalid_combo_and_resolution :
    (∀ (clip : Clip) (scale : Int) (tiles tilesize overlap : Option TileArg)
        (backend : BackendVal),
      clip.format.sample_type = SampleType.FLOAT →
      clip.format.bits_per_sample = 32 →
      (scale = 1 ∨ scale = 2) →
      Waifu2x clip 0 scale tiles tilesize overlap 0 backend =
        Except.error (PyErr.valueError
          ("vsmlrt.Waifu2x: \"anime_style_art\" model does not support noise reduction level 0"))) ∧
    (∀ (clip : Clip) (noise scale model : Int)
        (tiles tilesize overlap : Option TileArg) (backend : BackendVal),
      clip.format.sample_type = SampleType.FLOAT →
      clip.format.bits_per_sample = 32 →
      -1 ≤ noise → noise < 4 →
      (scale = 1 ∨ scale = 2) →
      0 ≤ model → model ≤ 6 →
      ¬(model = 0 ∧ noise = 0) →
      (model = 0 → clip.format.id = FormatId.GRAYS) →
      (model ≠ 0 → clip.format.id = FormatId.RGBS) →
      (model = 6 →
        (waifu2xGeometry clip tiles tilesize overlap model).2.1 % 4 = 0 ∧
        (waifu2xGeometry clip tiles tilesize overlap model).2.2 % 4 = 0) →
      isKnownBackend (normBackend backend) = true →
      ∃ call, Waifu2x clip noise scale tiles tilesize overlap model backend =
          Except.ok call ∧
        call.network_path = waifu2xNetworkPath model noise scale) := by
  constructor
  · intro clip scale tiles tilesize overlap backend h1 h2 hs
    have hc1 : ¬(clip.format.sample_type ≠ SampleType.FLOAT ∨
        clip.format.bits_per_sample ≠ 32) := by simp [h1, h2]
    have hc2 : ¬¬((-1 : Int) ≤ 0 ∧ (0 : Int) < 4) := by norm_num
    have hc3 : ¬¬(scale = 1 ∨ scale = 2) := by tauto
    have hc4 : ¬¬((0 : Int) ≤ 0 ∧ (0 : Int) ≤ 6) := by norm_num
    rw [Waifu2x, if_neg hc1, if_neg hc2, if_neg hc3, if_neg hc4,
      if_pos (⟨rfl, rfl⟩ : (0 : Int) = 0 ∧ (0 : Int) = 0)]
  · intro clip noise scale model tiles tilesize overlap backend
      h1 h2 hn1 hn2 hs hm1 hm2 hnot hfmt0 hfmt1 htile hb
    obtain ⟨call, heq, hpath, -, -, -⟩ :=
      waifu2x_ok clip noise scale tiles tilesize overlap model backend
        h1 h2 ⟨hn1, hn2⟩ hs ⟨hm1, hm2⟩ hnot hfmt0 hfmt1 htile hb
    exact ⟨call, heq, hpath⟩

/-- Witness for C4: the rejected combination at a concrete clip, and a
resolved path for the in-range combination `(6, 1, 2)`. -/
theorem waifu2x_invalid_combo_and_resolution_witness :
    Waifu2x ⟨⟨SampleType.FLOAT, 32, FormatId.GRAYS⟩, 64, 64, 10⟩ 0 2
        none none none 0 BackendVal.OV_CPU =
      Except.error (PyErr.valueError
        ("vsmlrt.Waifu2x: \"anime_style_art\" model does not support noise reduction level 0")) ∧
    ∃ call, Waifu2x ⟨⟨SampleType.FLOAT, 32, FormatId.RGBS⟩, 64, 64, 10⟩ 1 2
        none none none 6 BackendVal.OV_CPU = Except.ok call ∧
      call.network_path = waifu2xNetworkPath 6 1 2 := by
  constructor
  · exact waifu2x_invalid_combo_and_resolution.1
      ⟨⟨SampleType.FLOAT, 32, FormatId.GRAYS⟩, 64, 64, 10⟩ 2
      none none none BackendVal.OV_CPU rfl rfl (Or.inr rfl)
  · exact waifu2x_invalid_combo_and_resolution.2
      ⟨⟨SampleType.FLOAT, 32, FormatId.RGBS⟩, 64, 64, 10⟩ 1 2 6
      none none none BackendVal.OV_CPU rfl rfl (by norm_num) (by norm_num)
      (Or.inr rfl) (by norm_num) (by norm_num) (by norm_num)
      (fun h => absurd h (by norm_num)) (fun _ => rfl)
      (fun _ => by constructor <;> decide) rfl

/-- C7: every valid `Waifu2x` call with `model = 6` (cunet), `noise = 1`,
`scale = 2` hands the backend the network path
`waifu2x/cunet/noise1_scale2.0x_model.onnx`. -/
theorem waifu2x_cunet_noise1_scale2_path
    (clip : Clip) (tiles tilesize overlap : Option TileArg)
    (backend : BackendVal)
    (h1 : clip.format.sample_type = SampleType.FLOAT)
    (h2 : clip.format.bits_per_sample = 32)
    (hfmt : clip.format.id = FormatId.RGBS)
    (htile : (waifu2xGeometry clip tiles tilesize overlap 6).2.1 % 4 = 0 ∧
      (waifu2xGeometry clip tiles tilesize overlap 6).2.2 % 4 = 0)
    (hb : isKnownBackend (normBackend backend) = true) :
    ∃ call, Waifu2x clip 1 2 tiles tilesize overlap 6 backend =
        Except.ok call ∧
      call.network_path = ("waifu2x/cunet/noise1_scale2.0x_model.onnx") := by
  obtain ⟨call, heq, hpath, -, -, -⟩ :=
    waifu2x_ok clip 1 2 tiles tilesize overlap 6 backend
      h1 h2 (by norm_num) (Or.inr rfl) (by norm_num)
      (by norm_num) (fun h => absurd h (by norm_num)) (fun _ => hfmt)
      (fun _ => htile) hb
  refine ⟨call, heq, ?_⟩
  rw [hpath]
  rfl

/-- Witness for C7 at a concrete 64x64 RGBS float clip. -/
theorem waifu2x_cunet_noise1_scale2_path_witness :
    ∃ call, Waifu2x ⟨⟨SampleType.FLOAT, 32, FormatId.RGBS⟩, 64, 64, 10⟩ 1 2
        none none none 6 BackendVal.OV_CPU = Except.ok call ∧
      call.network_path = ("waifu2x/cunet/noise1_scale2.0x_model.onnx") :=
  waifu2x_cunet_noise1_scale2_path
    ⟨⟨SampleType.FLOAT, 32, FormatId.RGBS⟩, 64, 64, 10⟩
    none none none BackendVal.OV_CPU rfl rfl rfl (by constructor <;> decide) rfl

/-- C9: with `tiles` and `tilesize` both `None` and the default `overlap`,
`Waifu2x` forwards the full frame as tile size but still forwards the
per-model default overlap (8 for models 0-4, 4 for models 5-6) — the local
`overlap = 0` rebinding does not change the forwarded pair, which is in
particular never `(0, 0)`. -/
theorem waifu2x_default_tiling_overlap
    (clip : Clip) (noise scale model : Int) (backend : BackendVal)
    (h1 : clip.format.sample_type = SampleType.FLOAT)
    (h2 : clip.format.bits_per_sample = 32)
    (hn1 : -1 ≤ noise) (hn2 : noise < 4)
    (hs : scale = 1 ∨ scale = 2)
    (hm1 : 0 ≤ model) (hm2 : model ≤ 6)
    (hnot : ¬(model = 0 ∧ noise = 0))
    (hfmt0 : model = 0 → clip.format.id = FormatId.GRAYS)
    (hfmt1 : model ≠ 0 → clip.format.id = FormatId.RGBS)
    (hdiv : model = 6 → clip.width % 4 = 0 ∧ clip.height % 4 = 0)
    (hb : isKnownBackend (normBackend backend) = true) :
    ∃ call, Waifu2x clip noise scale none none none model backend =
        Except.ok call ∧
      call.tileGeom = (clip.width, clip.height) ∧
      call.overlapGeom = ((if model ≤ 4 then 8 else 4 : Int),
        (if model ≤ 4 then 8 else 4 : Int)) ∧
      call.overlapGeom ≠ ((0 : Int), (0 : Int)) := by
  obtain ⟨call, heq, -, hov, hti, -⟩ :=
    waifu2x_ok clip noise scale none none none model backend
      h1 h2 ⟨hn1, hn2⟩ hs ⟨hm1, hm2⟩ hnot hfmt0 hfmt1
      (fun h6 => ⟨(hdiv h6).1, (hdiv h6).2⟩) hb
  have hgeo1 : (waifu2xGeometry clip none none none model).1 =
      (([8, 8, 8, 8, 8, 4, 4] : List Int).getD model.toNat 0,
       ([8, 8, 8, 8, 8, 4, 4] : List Int).getD model.toNat 0) := rfl
  have hgeo2 : (waifu2xGeometry clip none none none model).2 =
      (clip.width, clip.height) := rfl
  have hd : ([8, 8, 8, 8, 8, 4, 4] : List Int).getD model.toNat 0 =
      (if model ≤ 4 then 8 else 4 : Int) := by
    interval_cases model <;> decide
  refine ⟨call, heq, by rw [hti, hgeo2], by rw [hov, hgeo1, hd], ?_⟩
  rw [hov, hgeo1, hd]
  intro hcontra
  rw [Prod.mk.injEq] at hcontra
  rcases le_or_lt model 4 with h | h
  · rw [if_pos h] at hcontra
    exact absurd hcontra.1 (by norm_num)
  · rw [if_neg (not_le.mpr h)] at hcontra
    exact absurd hcontra.1 (by norm_num)

/-- Witness for C9: cunet model on a 64x64 RGBS float clip with default
arguments forwards tile `(64, 64)` and overlap `(4, 4)`. -/
theorem waifu2x_default_tiling_overlap_witness :
    ∃ call, Waifu2x ⟨⟨SampleType.FLOAT, 32, FormatId.RGBS⟩, 64, 64, 10⟩ (-1) 2
        none none none 6 BackendVal.OV_CPU = Except.ok call ∧
      call.tileGeom = ((64 : Int), (64 : Int)) ∧
      call.overlapGeom = ((if (6 : Int) ≤ 4 then 8 else 4 : Int),
        (if (6 : Int) ≤ 4 then 8 else 4 : Int)) ∧
      call.overlapGeom ≠ ((0 : Int), (0 : Int)) :=
  waifu2x_default_tiling_overlap
    ⟨⟨SampleType.FLOAT, 32, FormatId.RGBS⟩, 64, 64, 10⟩ (-1) 2 6
    BackendVal.OV_CPU rfl rfl (by norm_num) (by norm_num) (Or.inr rfl)
    (by norm_num) (by norm_num) (by norm_num)
    (fun h => absurd h (by norm_num)) (fun _ => rfl)
    (fun _ => by constructor <;> decide) rfl

/-- Reduction of `DPIR` past its input validation: when the clip is 32-bit
float, the model index is in range and the clip format matches the model, the
call proceeds to the strength-processing stage with `None` defaulted to the
scalar `5.0`. -/
lemma dpir_past_validation (clip : Clip) (strength : Option StrengthArg)
    (tiles tilesize overlap : Option TileArg) (model : Int)
    (backend : BackendVal)
    (h1 : clip.format.sample_type = SampleType.FLOAT)
    (h2 : clip.format.bits_per_sample = 32)
    (hm : 0 ≤ model ∧ model ≤ 3)
    (hfmtG : (model = 0 ∨ model = 2) → clip.format.id = FormatId.GRAYS)
    (hfmtR : (model = 1 ∨ model = 3) → clip.format.id = FormatId.RGBS) :
    DPIR clip strength tiles tilesize overlap model backend =
      DPIRstrength clip (strength.getD (StrengthArg.scalar 5))
        tiles tilesize overlap model backend := by
  have hc1 : ¬(clip.format.sample_type ≠ SampleType.FLOAT ∨
      clip.format.bits_per_sample ≠ 32) := by simp [h1, h2]
  have hc2 : ¬¬(0 ≤ model ∧ model ≤ 3) := by tauto
  have hc3 : ¬((model = 0 ∨ model = 2) ∧ clip.format.id ≠ FormatId.GRAYS) := by
    rintro ⟨a, b⟩
    exact b (hfmtG a)
  have hc4 : ¬((model = 1 ∨ model = 3) ∧ clip.format.id ≠ FormatId.RGBS) := by
    rintro ⟨a, b⟩
    exact b (hfmtR a)
  rw [DPIR, if_neg hc1, if_neg hc2, if_neg hc3, if_neg hc4]

/-- Characterisation of every `DPIRtail` run whose tile geometry passes the
divisible-by-8 check and whose backend is a known instance. -/
lemma dpir_tail_ok (clip : Clip) (aux : VNode)
    (tiles tilesize overlap : Option TileArg) (model : Int)
    (backend : BackendVal)
    (hdiv1 : (dpirGeometry clip tiles tilesize overlap).2.1 % 8 = 0)
    (hdiv2 : (dpirGeometry clip tiles tilesize overlap).2.2 % 8 = 0)
    (hb : isKnownBackend (normBackend backend) = true) :
    ∃ call, DPIRtail clip aux tiles tilesize overlap model backend =
        Except.ok call ∧
      call.network_path = dpirNetworkPath model ∧
      call.overlapGeom = (dpirGeometry clip tiles tilesize overlap).1 ∧
      call.tileGeom = (dpirGeometry clip tiles tilesize overlap).2 ∧
      call.clipList = [VNode.src clip, aux] := by
  have hc : ¬((dpirGeometry clip tiles tilesize overlap).2.1 % 8 ≠ 0 ∨
      (dpirGeometry clip tiles tilesize overlap).2.2 % 8 ≠ 0) := by
    rintro (b | b)
    · exact b hdiv1
    · exact b hdiv2
  rw [DPIRtail, if_neg hc]
  cases hnb : normBackend backend <;> rw [hnb] at hb <;>
    simp only [isKnownBackend, Bool.false_eq_true] at hb
  · exact ⟨_, rfl, rfl, rfl, rfl, rfl⟩
  · exact ⟨_, rfl, rfl, rfl, rfl, rfl⟩
  · exact ⟨_, rfl, rfl, rfl, rfl, rfl⟩

/-- C3 counterexample: a three-channel (RGBS) strength clip matching a
three-channel primary clip (model 1) in channel layout, width, height and
frame count is nevertheless rejected, because the code requires the strength
clip to be GRAYS unconditionally. -/
theorem dpir_strength_rgbs_rejected :
    DPIR ⟨⟨SampleType.FLOAT, 32, FormatId.RGBS⟩, 64, 64, 10⟩
        (some (StrengthArg.vclip ⟨⟨SampleType.FLOAT, 32, FormatId.RGBS⟩, 64, 64, 10⟩))
        none none none 1 BackendVal.OV_CPU =
      Except.error (PyErr.valueError
        ("vsmlrt.DPIR: \"strength\" must be of GRAYS format")) ∧
    ∀ call, DPIR ⟨⟨SampleType.FLOAT, 32, FormatId.RGBS⟩, 64, 64, 10⟩
        (some (StrengthArg.vclip ⟨⟨SampleType.FLOAT, 32, FormatId.RGBS⟩, 64, 64, 10⟩))
        none none none 1 BackendVal.OV_CPU ≠ Except.ok call := by
  refine ⟨rfl, ?_⟩
  intro call h
  rw [show DPIR ⟨⟨SampleType.FLOAT, 32, FormatId.RGBS⟩, 64, 64, 10⟩
      (some (StrengthArg.vclip ⟨⟨SampleType.FLOAT, 32, FormatId.RGBS⟩, 64, 64, 10⟩))
      none none none 1 BackendVal.OV_CPU =
    Except.error (PyErr.valueError
      ("vsmlrt.DPIR: \"strength\" must be of GRAYS format")) from rfl] at h
  exact Except.noConfusion h

/-- C3 (amended): a clip-valued `strength` must be single-channel GRAYS —
regardless of the primary clip's channel layout — and match the primary
clip's width, height and frame count; when all of that holds validation
passes (the call proceeds to the geometry/dispatch tail with the rescaled
strength node), and each violation raises the corresponding `ValueError`. -/
theorem dpir_strength_clip_validation
    (clip s : Clip) (tiles tilesize overlap : Option TileArg) (model : Int)
    (backend : BackendVal)
    (h1 : clip.format.sample_type = SampleType.FLOAT)
    (h2 : clip.format.bits_per_sample = 32)
    (hm : 0 ≤ model ∧ model ≤ 3)
    (hfmtG : (model = 0 ∨ model = 2) → clip.format.id = FormatId.GRAYS)
    (hfmtR : (model = 1 ∨ model = 3) → clip.format.id = FormatId.RGBS) :
    (s.format.id = FormatId.GRAYS → s.width = clip.width →
      s.height = clip.height → s.num_frames = clip.num_frames →
      DPIR clip (some (StrengthArg.vclip s)) tiles tilesize overlap model backend =
        DPIRtail clip (VNode.exprNode s ("x 255 /"))
          tiles tilesize overlap model backend) ∧
    (s.format.id ≠ FormatId.GRAYS →
      DPIR clip (some (StrengthArg.vclip s)) tiles tilesize overlap model backend =
        Except.error (PyErr.valueError
          ("vsmlrt.DPIR: \"strength\" must be of GRAYS format"))) ∧
    (s.format.id = FormatId.GRAYS →
      (s.width ≠ clip.width ∨ s.height ≠ clip.height) →
      DPIR clip (some (StrengthArg.vclip s)) tiles tilesize overlap model backend =
        Except.error (PyErr.valueError
          ("vsmlrt.DPIR: \"strength\" must be of the same size as \"clip\""))) ∧
    (s.format.id = FormatId.GRAYS → s.width = clip.width →
      s.height = clip.height → s.num_frames ≠ clip.num_frames →
      DPIR clip (some (StrengthArg.vclip s)) tiles tilesize overlap model backend =
        Except.error (PyErr.valueError
          ("vsmlrt.DPIR: \"strength\" must be of the same length as \"clip\""))) := by
  rw [dpir_past_validation clip (some (StrengthArg.vclip s))
    tiles tilesize overlap model backend h1 h2 hm hfmtG hfmtR]
  simp only [Option.getD_some, DPIRstrength]
  refine ⟨?_, ?_, ?_, ?_⟩
  · intro hg hw hh hn
    rw [if_neg (by simp [hg]), if_neg (by simp [hw, hh]), if_neg (by simp [hn])]
  · intro hg
    rw [if_pos hg]
  · intro hg hsz
    rw [if_neg (by simp [hg]), if_pos hsz]
  · intro hg hw hh hn
    rw [if_neg (by simp [hg]), if_neg (by simp [hw, hh]), if_pos hn]

/-- Witness for C3 (amended): a GRAYS strength clip of matching size and
length for an RGBS model-1 primary passes validation, and a GRAYS strength
clip of the wrong size is rejected. -/
theorem dpir_strength_clip_validation_witness :
    DPIR ⟨⟨SampleType.FLOAT, 32, FormatId.RGBS⟩, 64, 64, 10⟩
        (some (StrengthArg.vclip ⟨⟨SampleType.FLOAT, 32, FormatId.GRAYS⟩, 64, 64, 10⟩))
        none none none 1 BackendVal.OV_CPU =
      DPIRtail ⟨⟨SampleType.FLOAT, 32, FormatId.RGBS⟩, 64, 64, 10⟩
        (VNode.exprNode ⟨⟨SampleType.FLOAT, 32, FormatId.GRAYS⟩, 64, 64, 10⟩ ("x 255 /"))
        none none none 1 BackendVal.OV_CPU ∧
    DPIR ⟨⟨SampleType.FLOAT, 32, FormatId.RGBS⟩, 64, 64, 10⟩
        (some (StrengthArg.vclip ⟨⟨SampleType.FLOAT, 32, FormatId.GRAYS⟩, 32, 32, 10⟩))
        none none none 1 BackendVal.OV_CPU =
      Except.error (PyErr.valueError
        ("vsmlrt.DPIR: \"strength\" must be of the same size as \"clip\"")) := by
  constructor
  · exact (dpir_strength_clip_validation
      ⟨⟨SampleType.FLOAT, 32, FormatId.RGBS⟩, 64, 64, 10⟩
      ⟨⟨SampleType.FLOAT, 32, FormatId.GRAYS⟩, 64, 64, 10⟩
      none none none 1 BackendVal.OV_CPU rfl rfl (by norm_num)
      (fun h => by omega) (fun _ => rfl)).1 rfl rfl rfl rfl
  · exact (dpir_strength_clip_validation
      ⟨⟨SampleType.FLOAT, 32, FormatId.RGBS⟩, 64, 64, 10⟩
      ⟨⟨SampleType.FLOAT, 32, FormatId.GRAYS⟩, 32, 32, 10⟩
      none none none 1 BackendVal.OV_CPU rfl rfl (by norm_num)
      (fun h => by omega) (fun _ => rfl)).2.2.1 rfl (Or.inl (by norm_num))

/-- C6 counterexample: an unparsable string such as `"abc"` is neither
float-convertible nor a frame, yet the raised exception is the `ValueError`
propagated from `float()` — not the documented `TypeError` — because
`except TypeError` does not catch `ValueError`. -/
theorem dpir_badstr_not_type_error :
    DPIR ⟨⟨SampleType.FLOAT, 32, FormatId.GRAYS⟩, 64, 64, 10⟩
        (some (StrengthArg.badStr ("abc"))) none none none 0 BackendVal.OV_CPU =
      Except.error (PyErr.valueError ("could not convert string to float: abc")) ∧
    ∀ msg, DPIR ⟨⟨SampleType.FLOAT, 32, FormatId.GRAYS⟩, 64, 64, 10⟩
        (some (StrengthArg.badStr ("abc"))) none none none 0 BackendVal.OV_CPU ≠
      Except.error (PyErr.typeError msg) := by
  refine ⟨rfl, ?_⟩
  intro msg h
  rw [show DPIR ⟨⟨SampleType.FLOAT, 32, FormatId.GRAYS⟩, 64, 64, 10⟩
      (some (StrengthArg.badStr ("abc"))) none none none 0 BackendVal.OV_CPU =
    Except.error (PyErr.valueError ("could not convert string to float: abc"))
    from rfl] at h
  simp at h

/-- C6 (amended): a `strength` argument on which `float()` raises `TypeError`
(any non-float-convertible, non-string object) makes `DPIR` raise the
documented `TypeError` naming "strength"; an unparsable string instead
propagates the `ValueError` raised by `float()`. -/
theorem dpir_strength_conversion_errors
    (clip : Clip) (tiles tilesize overlap : Option TileArg) (model : Int)
    (backend : BackendVal) (txt str : String)
    (h1 : clip.format.sample_type = SampleType.FLOAT)
    (h2 : clip.format.bits_per_sample = 32)
    (hm : 0 ≤ model ∧ model ≤ 3)
    (hfmtG : (model = 0 ∨ model = 2) → clip.format.id = FormatId.GRAYS)
    (hfmtR : (model = 1 ∨ model = 3) → clip.format.id = FormatId.RGBS) :
    DPIR clip (some (StrengthArg.nonFloat txt))
        tiles tilesize overlap model backend =
      Except.error (PyErr.typeError
        ("vsmlrt.DPIR: \"strength\" must be a float or a clip")) ∧
    DPIR clip (some (StrengthArg.badStr str))
        tiles tilesize overlap model backend =
      Except.error (PyErr.valueError
        ("could not convert string to float: " ++ str)) := by
  constructor
  · rw [dpir_past_validation clip (some (StrengthArg.nonFloat txt))
      tiles tilesize overlap model backend h1 h2 hm hfmtG hfmtR]
    rfl
  · rw [dpir_past_validation clip (some (StrengthArg.badStr str))
      tiles tilesize overlap model backend h1 h2 hm hfmtG hfmtR]
    rfl

/-- Witness for C6 (amended) at concrete inputs. -/
theorem dpir_strength_conversion_errors_witness :
    DPIR ⟨⟨SampleType.FLOAT, 32, FormatId.GRAYS⟩, 64, 64, 10⟩
        (some (StrengthArg.nonFloat ("None"))) none none none 0 BackendVal.OV_CPU =
      Except.error (PyErr.typeError
        ("vsmlrt.DPIR: \"strength\" must be a float or a clip")) ∧
    DPIR ⟨⟨SampleType.FLOAT, 32, FormatId.GRAYS⟩, 64, 64, 10⟩
        (some (StrengthArg.badStr ("abc"))) none none none 0 BackendVal.OV_CPU =
      Except.error (PyErr.valueError ("could not convert string to float: abc")) :=
  dpir_strength_conversion_errors
    ⟨⟨SampleType.FLOAT, 32, FormatId.GRAYS⟩, 64, 64, 10⟩
    none none none 0 BackendVal.OV_CPU ("None") ("abc") rfl rfl (by norm_num)
    (fun _ => rfl) (fun h => by omega)

/-- C8: a valid `DPIR` call with `strength = None` passes the backend, next to
the primary clip, a blank GRAYS frame at constant value `5.0 / 255` that
matches the primary clip's dimensions and frame count. -/
theorem dpir_default_strength_blank
    (clip : Clip) (tiles tilesize overlap : Option TileArg) (model : Int)
    (backend : BackendVal)
    (h1 : clip.format.sample_type = SampleType.FLOAT)
    (h2 : clip.format.bits_per_sample = 32)
    (hm : 0 ≤ model ∧ model ≤ 3)
    (hfmtG : (model = 0 ∨ model = 2) → clip.format.id = FormatId.GRAYS)
    (hfmtR : (model = 1 ∨ model = 3) → clip.format.id = FormatId.RGBS)
    (hdiv1 : (dpirGeometry clip tiles tilesize overlap).2.1 % 8 = 0)
    (hdiv2 : (dpirGeometry clip tiles tilesize overlap).2.2 % 8 = 0)
    (hb : isKnownBackend (normBackend backend) = true) :
    ∃ call, DPIR clip none tiles tilesize overlap model backend =
        Except.ok call ∧
      call.clipList = [VNode.src clip,
        VNode.blankNode clip FormatId.GRAYS (5 / 255)] ∧
      (VNode.blankNode clip FormatId.GRAYS (5 / 255)).format_id = FormatId.GRAYS ∧
      (VNode.blankNode clip FormatId.GRAYS (5 / 255)).width = clip.width ∧
      (VNode.blankNode clip FormatId.GRAYS (5 / 255)).height = clip.height ∧
      (VNode.blankNode clip FormatId.GRAYS (5 / 255)).num_frames =
        clip.num_frames := by
  rw [dpir_past_validation clip none tiles tilesize overlap model backend
    h1 h2 hm hfmtG hfmtR]
  rw [show DPIRstrength clip ((none : Option StrengthArg).getD (StrengthArg.scalar 5))
      tiles tilesize overlap model backend =
    DPIRtail clip (VNode.blankNode clip FormatId.GRAYS (5 / 255))
      tiles tilesize overlap model backend from rfl]
  obtain ⟨call, heq, -, -, -, hcl⟩ :=
    dpir_tail_ok clip (VNode.blankNode clip FormatId.GRAYS (5 / 255))
      tiles tilesize overlap model backend hdiv1 hdiv2 hb
  exact ⟨call, heq, hcl, rfl, rfl, rfl, rfl⟩

/-- Witness for C8 at a concrete 64x64 GRAYS float clip with `model = 0`. -/
theorem dpir_default_strength_blank_witness :
    ∃ call, DPIR ⟨⟨SampleType.FLOAT, 32, FormatId.GRAYS⟩, 64, 64, 10⟩
        none none none none 0 BackendVal.OV_CPU = Except.ok call ∧
      call.clipList = [VNode.src ⟨⟨SampleType.FLOAT, 32, FormatId.GRAYS⟩, 64, 64, 10⟩,
        VNode.blankNode ⟨⟨SampleType.FLOAT, 32, FormatId.GRAYS⟩, 64, 64, 10⟩
          FormatId.GRAYS (5 / 255)] ∧
      (VNode.blankNode ⟨⟨SampleType.FLOAT, 32, FormatId.GRAYS⟩, 64, 64, 10⟩
        FormatId.GRAYS (5 / 255)).format_id = FormatId.GRAYS ∧
      (VNode.blankNode ⟨⟨SampleType.FLOAT, 32, FormatId.GRAYS⟩, 64, 64, 10⟩
        FormatId.GRAYS (5 / 255)).width = 64 ∧
      (VNode.blankNode ⟨⟨SampleType.FLOAT, 32, FormatId.GRAYS⟩, 64, 64, 10⟩
        FormatId.GRAYS (5 / 255)).height = 64 ∧
      (VNode.blankNode ⟨⟨SampleType.FLOAT, 32, FormatId.GRAYS⟩, 64, 64, 10⟩
        FormatId.GRAYS (5 / 255)).num_frames = 10 :=
  dpir_default_strength_blank
    ⟨⟨SampleType.FLOAT, 32, FormatId.GRAYS⟩, 64, 64, 10⟩
    none none none 0 BackendVal.OV_CPU rfl rfl (by norm_num)
    (fun _ => rfl) (fun h => by omega) (by decide) (by decide) rfl

/-- C10: with `tiles` and `tilesize` both `None`, the `DPIR` tile size is the
full frame, so the call raises the divisible-by-8 `ValueError` exactly when
the frame's width or height is not a multiple of 8, and passes geometry
validation (reaching the backend) when both are. -/
theorem dpir_default_tiling_divisibility
    (clip : Clip) (overlap : Option TileArg) (model : Int)
    (backend : BackendVal)
    (h1 : clip.format.sample_type = SampleType.FLOAT)
    (h2 : clip.format.bits_per_sample = 32)
    (hm : 0 ≤ model ∧ model ≤ 3)
    (hfmtG : (model = 0 ∨ model = 2) → clip.format.id = FormatId.GRAYS)
    (hfmtR : (model = 1 ∨ model = 3) → clip.format.id = FormatId.RGBS) :
    ((clip.width % 8 ≠ 0 ∨ clip.height % 8 ≠ 0) →
      DPIR clip none none none overlap model backend =
        Except.error (PyErr.valueError
          ("vsmlrt.DPIR: tile size must be divisible by 8 (" ++
            toString clip.width ++ ", " ++ toString clip.height ++ ")"))) ∧
    (clip.width % 8 = 0 → clip.height % 8 = 0 →
      isKnownBackend (normBackend backend) = true →
      ∃ call, DPIR clip none none none overlap model backend =
        Except.ok call) := by
  constructor
  · intro hbad
    rw [dpir_past_validation clip none none none overlap model backend
      h1 h2 hm hfmtG hfmtR]
    rw [show DPIRstrength clip
        ((none : Option StrengthArg).getD (StrengthArg.scalar 5))
        none none overlap model backend =
      DPIRtail clip (VNode.blankNode clip FormatId.GRAYS (5 / 255))
        none none overlap model backend from rfl]
    have hbad2 : (dpirGeometry clip none none overlap).2.1 % 8 ≠ 0 ∨
        (dpirGeometry clip none none overlap).2.2 % 8 ≠ 0 := hbad
    rw [DPIRtail, if_pos hbad2]
    rfl
  · intro hw hh hb
    rw [dpir_past_validation clip none none none overlap model backend
      h1 h2 hm hfmtG hfmtR]
    rw [show DPIRstrength clip
        ((none : Option StrengthArg).getD (StrengthArg.scalar 5))
        none none overlap model backend =
      DPIRtail clip (VNode.blankNode clip FormatId.GRAYS (5 / 255))
        none none overlap model backend from rfl]
    obtain ⟨call, heq, -, -, -, -⟩ :=
      dpir_tail_ok clip (VNode.blankNode clip FormatId.GRAYS (5 / 255))
        none none overlap model backend hw hh hb
    exact ⟨call, heq⟩

/-- Witness for C10: a 65x64 GRAYS frame is rejected with the
divisible-by-8 error; a 64x64 GRAYS frame reaches the backend. -/
theorem dpir_default_tiling_divisibility_witness :
    DPIR ⟨⟨SampleType.FLOAT, 32, FormatId.GRAYS⟩, 65, 64, 10⟩
        none none none none 0 BackendVal.OV_CPU =
      Except.error (PyErr.valueError
        ("vsmlrt.DPIR: tile size must be divisible by 8 (65, 64)")) ∧
    ∃ call, DPIR ⟨⟨SampleType.FLOAT, 32, FormatId.GRAYS⟩, 64, 64, 10⟩
        none none none none 0 BackendVal.OV_CPU = Except.ok call := by
  constructor
  · exact (dpir_default_tiling_divisibility
      ⟨⟨SampleType.FLOAT, 32, FormatId.GRAYS⟩, 65, 64, 10⟩
      none 0 BackendVal.OV_CPU rfl rfl (by norm_num)
      (fun _ => rfl) (fun h => by omega)).1 (Or.inl (by decide))
  · exact (dpir_default_tiling_divisibility
      ⟨⟨SampleType.FLOAT, 32, FormatId.GRAYS⟩, 64, 64, 10⟩
      none 0 BackendVal.OV_CPU rfl rfl (by norm_num)
      (fun _ => rfl) (fun h => by omega)).2 (by decide) (by decide) rfl
